import Mathlib

/-!
Verification of the interaction-log slice of an LLM observability dashboard.

The development shallowly embeds the persisted interaction table (a CSV of
fixed schema), the store operations `log_prompt_response` (append) and
`manual_evaluate` (update-by-match), the aggregate-statistics function
`get_aggregate_stats`, the chart renderer `plot_metrics`, the inference
wrapper `generate_llm_response` and the orchestrator `handle_submit`.
Machine floats of the source carry only equality tests and arithmetic means
here, so they are modelled by rationals; file I/O and raised exceptions are
modelled by `Except String`.
-/

deriving instance DecidableEq for Except

namespace Dashboard

/-- One row of the persisted interaction table.  Fields and their order
follow the fixed CSV schema `timestamp, prompt, response, latency,
model_version, prompt_template, user_feedback, hallucination`. -/
structure Row where
  timestamp : ℚ
  prompt : String
  response : String
  latency : ℚ
  model_version : String
  prompt_template : String
  user_feedback : Option String
  hallucination : Bool
deriving DecidableEq, Repr

/-- A data frame as the analytics functions see it: its rows plus flags
recording which of the feedback-related columns are present (pandas raises
`KeyError` on access to an absent column; `get_aggregate_stats` and
`plot_metrics` guard some of these accesses and not others). -/
structure Table where
  rows : List Row
  hasUserFeedback : Bool := true
  hasLatency : Bool := true
  hasHallucination : Bool := true
deriving DecidableEq, Repr

/-- Equality test of one row against the (prompt, response, latency)
identification triple, as in
`(df["prompt"]==prompt) & (df["response"]==response) & (df["latency"]==float(latency))`. -/
def row_matches (p r : String) (l : ℚ) (row : Row) : Bool :=
  row.prompt == p && row.response == r && row.latency == l

/-- Whether position `i` of the table holds a row matching the triple. -/
def matchesAt (tbl : List Row) (p r : String) (l : ℚ) (i : Nat) : Bool :=
  match tbl[i]? with
  | some row => row_matches p r l row
  | none => false

/-- The index list `idx` of the source: positions of all rows matching the
triple, in ascending table order. -/
def matchIndices (tbl : List Row) (p r : String) (l : ℚ) : List Nat :=
  (List.range tbl.length).filter (fun i => matchesAt tbl p r l i)

/-- Pure core of `manual_evaluate`: on the in-memory table, if the match
index list is non-empty, overwrite `user_feedback` and `hallucination` of
the row at its last index (`idx[-1]`); the Boolean records whether the
table was written back (`df.to_csv` runs only inside the `if`). The
`model_version` and `prompt_template` arguments are accepted, as in the
source signature, and never read. -/
def update_by_match (tbl : List Row) (p r : String) (l : ℚ)
    (model_version prompt_template : String)
    (fb : Option String) (hal : Bool) : List Row × Bool :=
  match (matchIndices tbl p r l).getLast? with
  | some j =>
    match tbl[j]? with
    | some row => (tbl.set j { row with user_feedback := fb, hallucination := hal }, true)
    | none => (tbl, false)
  | none => (tbl, false)

/-- State of the backing CSV file: either its parsed contents, or the error
that reading it raises; plus whether writing it back raises. -/
structure FileState where
  contents : Except String (List Row)
  writeFails : Bool := false
deriving DecidableEq, Repr

/-- The body of `manual_evaluate` as its caller observes it: `pd.read_csv`
and `df.to_csv` may raise, and the function installs no handler, so an
`Except.error` result is an exception propagating out of the function. -/
def manual_evaluate (fs : FileState) (p r : String) (l : ℚ)
    (model_version prompt_template : String)
    (fb : Option String) (hal : Bool) : Except String FileState :=
  match fs.contents with
  | .error e => .error e
  | .ok df =>
    let res := update_by_match df p r l model_version prompt_template fb hal
    if res.2 then
      if fs.writeFails then .error "write failed"
      else .ok { fs with contents := .ok res.1 }
    else .ok fs

/-- The `try` block of `log_prompt_response`: build the entry (timestamp
taken from the `now` argument standing for `time.time()`), read the file,
concatenate the new row, write back.  Either I/O step may raise. -/
def append_attempt (fs : FileState) (now : ℚ) (prompt response : String)
    (latency : ℚ) (model_version prompt_template : String)
    (fb : Option String) (hal : Bool) : Except String FileState :=
  let entry : Row :=
    { timestamp := now, prompt := prompt, response := response, latency := latency,
      model_version := model_version, prompt_template := prompt_template,
      user_feedback := fb, hallucination := hal }
  match fs.contents with
  | .error e => .error e
  | .ok df =>
    if fs.writeFails then .error "write failed"
    else .ok { fs with contents := .ok (df ++ [entry]) }

/-- The whole of `log_prompt_response`: the `try` block wrapped in
`except Exception as e: print(...)`, which catches every failure and leaves
the caller with a normal return.  The defaults mirror
`user_feedback=None, hallucination=False`. -/
def log_prompt_response (fs : FileState) (now : ℚ) (prompt response : String)
    (latency : ℚ) (model_version prompt_template : String)
    (fb : Option String := none) (hal : Bool := false) : Except String FileState :=
  match append_attempt fs now prompt response latency model_version prompt_template fb hal with
  | .ok fs2 => .ok fs2
  | .error _ => .ok fs

/-- The record returned by `get_aggregate_stats` (the dictionary of the
source, with counts as naturals and latency/rates as rationals). -/
structure Stats where
  total : Nat
  thumbs_up : Nat
  thumbs_down : Nat
  hallucinations : Nat
  avg_latency : ℚ
  satisfaction_rate : ℚ
  hallucination_rate : ℚ
deriving DecidableEq, Repr

/-- The `compute` operation `get_aggregate_stats`.  Column accesses are
faithful to the source: `df["user_feedback"]` is unguarded (raises
`KeyError` when the column is absent), `df["hallucination"].sum()` is
guarded by `if "hallucination" in df else 0`, and `df["latency"].mean()`
is reached only when `total > 0` (the mean of `n` rational latencies is
their sum divided by `n`). -/
def get_aggregate_stats (t : Table) : Except String Stats :=
  let total := t.rows.length
  if t.hasUserFeedback then
    let uf := t.rows.map (fun row => row.user_feedback)
    let up := (uf.filter (fun v => v == some "👍")).length
    let down := (uf.filter (fun v => v == some "👎")).length
    let halluc := if t.hasHallucination then (t.rows.filter (fun row => row.hallucination)).length else 0
    let avgE : Except String ℚ :=
      if total > 0 then
        if t.hasLatency then .ok (((t.rows.map (fun row => row.latency)).sum) / (total : ℚ))
        else .error "KeyError: latency"
      else .ok 0
    match avgE with
    | .error e => .error e
    | .ok avg =>
      .ok { total := total, thumbs_up := up, thumbs_down := down,
            hallucinations := halluc, avg_latency := avg,
            satisfaction_rate :=
              if up + down > 0 then ((up : ℚ) / ((up : ℚ) + (down : ℚ))) * 100 else 0,
            hallucination_rate :=
              if total > 0 then ((halluc : ℚ) / (total : ℚ)) * 100 else 0 }
  else .error "KeyError: user_feedback"

/-- Insert a (value, count) pair into a count-descending list, keeping
earlier entries first on ties. -/
def insertByCount (x : String × Nat) : List (String × Nat) → List (String × Nat)
  | [] => [x]
  | y :: ys => if x.2 > y.2 then x :: y :: ys else y :: insertByCount x ys

/-- Model of `Series.value_counts()`: counts of each distinct non-null
value, most frequent first. -/
def value_counts (l : List (Option String)) : List (String × Nat) :=
  let vals := l.filterMap id
  let pairs := vals.eraseDups.map (fun v => (v, (vals.filter (fun w => w == v)).length))
  pairs.foldr insertByCount []

/-- First panel of the figure: either the "no data" title variant or the
feedback bar chart with its labels, counts and satisfaction-rate text. -/
inductive Panel1 where
  | noData
  | bars (labels : List String) (counts : List Nat) (satisfaction : ℚ)
deriving DecidableEq, Repr

/-- Third panel: either the "no data" title variant or the latency line
with its mean text and whether a trend line was overlaid. -/
inductive Panel3 where
  | noData
  | line (latencies : List ℚ) (avg : ℚ) (hasTrend : Bool)
deriving DecidableEq, Repr

/-- The three-panel figure `plot_metrics` returns: panel 1 as above, panel
2 always drawn (hallucination count bar plus rate text), panel 3 as
above. -/
structure Fig where
  panel1 : Panel1
  hallucCount : Nat
  hallucRate : ℚ
  panel3 : Panel3
deriving DecidableEq, Repr

/-- The chart renderer `plot_metrics` (primary definition, numpy present).
`df["user_feedback"].value_counts()` is unguarded, so an absent
user_feedback column raises `KeyError`; the hallucination access is
guarded by `if "hallucination" in df.columns else 0` and the latency panel
by `if not df.empty and "latency" in df.columns`.  The trend line is added
when more than 5 latency points exist. -/
def plot_metrics (t : Table) : Except String Fig :=
  if t.hasUserFeedback then
    let thumbs := value_counts (t.rows.map (fun row => row.user_feedback))
    let panel1 :=
      if thumbs.isEmpty then Panel1.noData
      else
        let labels := thumbs.map (fun x => if x.1 == "👍" then "Positive" else "Negative")
        let counts := thumbs.map (fun x => x.2)
        let total_feedback := (thumbs.map (fun x => x.2)).sum
        let thumbs_up := ((thumbs.filter (fun x => x.1 == "👍")).map (fun x => x.2)).sum
        let satisfaction :=
          if total_feedback > 0 then ((thumbs_up : ℚ) / (total_feedback : ℚ)) * 100 else 0
        Panel1.bars labels counts satisfaction
    let halluc_count := if t.hasHallucination then (t.rows.filter (fun row => row.hallucination)).length else 0
    let total := t.rows.length
    let halluc_rate := if total > 0 then ((halluc_count : ℚ) / (total : ℚ)) * 100 else 0
    let panel3 :=
      if total > 0 && t.hasLatency then
        let latencies := t.rows.map (fun row => row.latency)
        Panel3.line latencies (latencies.sum / (latencies.length : ℚ)) (decide (latencies.length > 5))
      else Panel3.noData
    .ok { panel1 := panel1, hallucCount := halluc_count, hallucRate := halluc_rate, panel3 := panel3 }
  else .error "KeyError: user_feedback"

/-- The inference wrapper `generate_llm_response`.  The Hugging Face call
itself is external: its outcome is the `inner` argument (`.ok text` for
generated text, `.error e` for a raised exception `e`); `hfToken` is the
`HF_TOKEN` environment variable.  The function never raises: a missing
token and an inner exception are both converted to returned error
strings. -/
def generate_llm_response (hfToken : Option String) (inner : Except String String)
    (model_version : String) : String :=
  match hfToken with
  | none => "Error: HF_TOKEN environment variable not set. Please add your Hugging Face API token to .env file."
  | some _ =>
    match inner with
    | .ok text => text
    | .error e => "Error with model " ++ model_version ++ ": " ++ e

/-- Model of the guard `if not prompt.strip()`: stripping whitespace from
both ends leaves the empty string exactly when every character of the
prompt is whitespace (which includes the empty prompt). -/
def prompt_is_blank (s : String) : Bool :=
  s.data.all (fun c => c.isWhitespace)

/-- The orchestrator operation `handle_submit`.  `llm` is the outcome of
calling the inference collaborator (`.error e` when the call raises `e`),
`measured` is the rounded wall-clock latency of that call and `now` the
`time.time()` timestamp used by the logger.  Blank prompts are rejected
before anything else runs; a raising collaborator is caught, the message
`"Error generating response: " ++ e` is logged with latency 0 and returned
with latency 0; a normal return (which includes the error strings
`generate_llm_response` yields) is logged and returned with the measured
latency.  The logger itself swallows its failures, so the state update is
its `.ok` result. -/
def handle_submit (llm : Except String String) (measured now : ℚ)
    (fs : FileState) (prompt prompt_template model_version : String) :
    (String × ℚ) × FileState :=
  if prompt_is_blank prompt then (("Please enter a prompt.", 0), fs)
  else
    match llm with
    | .ok llm_response =>
      let fs2 := match log_prompt_response fs now prompt llm_response measured model_version prompt_template with
        | .ok s => s
        | .error _ => fs
      ((llm_response, measured), fs2)
    | .error e =>
      let error_msg := "Error generating response: " ++ e
      let fs2 := match log_prompt_response fs now prompt error_msg 0 model_version prompt_template with
        | .ok s => s
        | .error _ => fs
      ((error_msg, 0), fs2)

/-! Helper lemmas about the match-index list. -/

/-- The match index list is strictly increasing: it is a filter of
`range`. -/
theorem matchIndices_pairwise (tbl : List Row) (p r : String) (l : ℚ) :
    (matchIndices tbl p r l).Pairwise (· < ·) :=
  (List.pairwise_lt_range tbl.length).filter _

/-- In a strictly increasing list of naturals, the last element bounds
every member. -/
theorem le_getLast_of_pairwise {l : List Nat} {j : Nat}
    (hp : l.Pairwise (· < ·)) (hj : l.getLast? = some j) :
    ∀ i ∈ l, i ≤ j := by
  obtain ⟨ys, rfl⟩ := List.getLast?_eq_some_iff.mp hj
  rw [List.pairwise_append] at hp
  intro i hi
  rcases List.mem_append.mp hi with h | h
  · exact Nat.le_of_lt (hp.2.2 i h j (List.mem_singleton_self j))
  · rw [List.mem_singleton.mp h]

/-- Membership in the match index list unfolded. -/
theorem mem_matchIndices {tbl : List Row} {p r : String} {l : ℚ} {i : Nat} :
    i ∈ matchIndices tbl p r l ↔ i < tbl.length ∧ matchesAt tbl p r l i = true := by
  simp [matchIndices, List.mem_filter, List.mem_range]

/-- C1.  For every persisted table and every (prompt, response, latency)
triple with at least one matching row, `update_by_match` (the pure core of
`manual_evaluate`) rewrites only the last matching index `j`: the length
is preserved, every position other than `j` holds its old row, position
`j` holds its old row with exactly `user_feedback` and `hallucination`
replaced, the row at `j` matches the triple, and `j` bounds every matching
index, so it is the last match in original table order. -/
theorem update_by_match_updates_last_match_only
    (tbl : List Row) (p r : String) (l : ℚ) (mv pt : String)
    (fb : Option String) (hal : Bool) (j : Nat)
    (hj : (matchIndices tbl p r l).getLast? = some j) :
    (update_by_match tbl p r l mv pt fb hal).1.length = tbl.length
    ∧ (∀ i, i ≠ j → (update_by_match tbl p r l mv pt fb hal).1[i]? = tbl[i]?)
    ∧ (∀ row, tbl[j]? = some row →
        (update_by_match tbl p r l mv pt fb hal).1[j]? =
          some { row with user_feedback := fb, hallucination := hal })
    ∧ matchesAt tbl p r l j = true
    ∧ (∀ i ∈ matchIndices tbl p r l, i ≤ j) := by
  have hjmem : j ∈ matchIndices tbl p r l := List.mem_of_getLast?_eq_some hj
  obtain ⟨hjlt, hjmatch⟩ := mem_matchIndices.mp hjmem
  obtain ⟨row, hrow⟩ : ∃ row, tbl[j]? = some row := by
    rcases h : tbl[j]? with _ | row
    · rw [List.getElem?_eq_none_iff] at h; omega
    · exact ⟨row, rfl⟩
  have hres : update_by_match tbl p r l mv pt fb hal =
      (tbl.set j { row with user_feedback := fb, hallucination := hal }, true) := by
    simp [update_by_match, hj, hrow]
  refine ⟨?_, ?_, ?_, hjmatch, ?_⟩
  · rw [hres]; exact List.length_set ..
  · intro i hi
    rw [hres]
    exact List.getElem?_set_ne (by omega)
  · intro row2 hrow2
    rw [hrow] at hrow2
    cases hrow2
    rw [hres]
    exact List.getElem?_set_self hjlt
  · exact le_getLast_of_pairwise (matchIndices_pairwise tbl p r l) hj

/-- Concrete instantiation of the C1 theorem: a three-row table in which
the first two rows match the triple; only index 1 is rewritten. -/
theorem update_by_match_updates_last_match_only_witness :
    (update_by_match [⟨0, "p", "a", 1, "m", "t", none, false⟩,
        ⟨1, "p", "a", 1, "m", "t", none, false⟩,
        ⟨2, "q", "b", 2, "m", "t", none, false⟩] "p" "a" 1 "m" "t" (some "👍") true).1.length = 3
    ∧ (∀ i, i ≠ 1 → (update_by_match [⟨0, "p", "a", 1, "m", "t", none, false⟩,
        ⟨1, "p", "a", 1, "m", "t", none, false⟩,
        ⟨2, "q", "b", 2, "m", "t", none, false⟩] "p" "a" 1 "m" "t" (some "👍") true).1[i]? =
        [⟨0, "p", "a", 1, "m", "t", none, false⟩,
         ⟨1, "p", "a", 1, "m", "t", none, false⟩,
         (⟨2, "q", "b", 2, "m", "t", none, false⟩ : Row)][i]?)
    ∧ (∀ row, [⟨0, "p", "a", 1, "m", "t", none, false⟩,
         ⟨1, "p", "a", 1, "m", "t", none, false⟩,
         (⟨2, "q", "b", 2, "m", "t", none, false⟩ : Row)][1]? = some row →
        (update_by_match [⟨0, "p", "a", 1, "m", "t", none, false⟩,
          ⟨1, "p", "a", 1, "m", "t", none, false⟩,
          ⟨2, "q", "b", 2, "m", "t", none, false⟩] "p" "a" 1 "m" "t" (some "👍") true).1[1]? =
          some { row with user_feedback := some "👍", hallucination := true })
    ∧ matchesAt [⟨0, "p", "a", 1, "m", "t", none, false⟩,
        ⟨1, "p", "a", 1, "m", "t", none, false⟩,
        ⟨2, "q", "b", 2, "m", "t", none, false⟩] "p" "a" 1 1 = true
    ∧ (∀ i ∈ matchIndices [⟨0, "p", "a", 1, "m", "t", none, false⟩,
        ⟨1, "p", "a", 1, "m", "t", none, false⟩,
        ⟨2, "q", "b", 2, "m", "t", none, false⟩] "p" "a" 1, i ≤ 1) :=
  update_by_match_updates_last_match_only _ "p" "a" 1 "m" "t" (some "👍") true 1 (by decide)

/-- C2.  A triple matching zero rows makes `manual_evaluate` a silent
no-op: nothing is written back (`update_by_match` reports no write, so the
result holds even when writing would fail), the table is unchanged, and no
exception propagates (the result is `.ok` with the file state intact). -/
theorem manual_evaluate_no_match_noop
    (fs : FileState) (tbl : List Row) (p r : String) (l : ℚ)
    (mv pt : String) (fb : Option String) (hal : Bool)
    (hc : fs.contents = .ok tbl)
    (hm : matchIndices tbl p r l = []) :
    manual_evaluate fs p r l mv pt fb hal = .ok fs
    ∧ update_by_match tbl p r l mv pt fb hal = (tbl, false) := by
  have hu : update_by_match tbl p r l mv pt fb hal = (tbl, false) := by
    simp [update_by_match, hm]
  refine ⟨?_, hu⟩
  unfold manual_evaluate
  rw [hc]
  simp [hu]

/-- Concrete instantiation of the C2 theorem: one-row table, no match,
write failure armed — still a silent no-op. -/
theorem manual_evaluate_no_match_noop_witness :
    manual_evaluate ⟨.ok [⟨0, "p", "a", 1, "m", "t", none, false⟩], true⟩
      "x" "y" 7 "m" "t" (some "👍") true =
      .ok ⟨.ok [⟨0, "p", "a", 1, "m", "t", none, false⟩], true⟩
    ∧ update_by_match [⟨0, "p", "a", 1, "m", "t", none, false⟩] "x" "y" 7 "m" "t" (some "👍") true =
      ([⟨0, "p", "a", 1, "m", "t", none, false⟩], false) :=
  manual_evaluate_no_match_noop _ _ "x" "y" 7 "m" "t" (some "👍") true rfl (by decide)

/-- C3.  On the empty table with the full fixed schema (the state the log
file is initialised to), `get_aggregate_stats` returns total 0, average
latency 0, satisfaction rate 0 and hallucination rate 0, with no
division-by-zero failure: every division is guarded and the result is a
normal `.ok` return. -/
theorem get_aggregate_stats_empty :
    get_aggregate_stats { rows := [] } =
      .ok { total := 0, thumbs_up := 0, thumbs_down := 0, hallucinations := 0,
            avg_latency := 0, satisfaction_rate := 0, hallucination_rate := 0 } := by
  decide

/-- Counting two distinct values in one list: the two filters select
disjoint elements, so the counts sum to at most the length. -/
theorem length_filter_beq_two_le (l : List (Option String)) (a b : Option String)
    (hab : a ≠ b) :
    (l.filter (fun v => v == a)).length + (l.filter (fun v => v == b)).length ≤ l.length := by
  induction l with
  | nil => simp
  | cons x xs ih =>
    simp only [List.filter_cons, beq_iff_eq]
    by_cases hxa : x = a
    · have hxb : ¬x = b := fun h => hab (hxa ▸ h ▸ rfl)
      rw [if_pos (by simpa using hxa), if_neg (by simpa using hxb)]
      simp only [List.length_cons]
      omega
    · by_cases hxb : x = b
      · rw [if_neg (by simpa using hxa), if_pos (by simpa using hxb)]
        simp only [List.length_cons]
        omega
      · rw [if_neg (by simpa using hxa), if_neg (by simpa using hxb)]
        simp only [List.length_cons]
        omega

/-- C4.  Whenever `get_aggregate_stats` returns a stats record, the
positive and negative feedback counts sum to at most the row count, and
the hallucination count is at most the row count. -/
theorem get_aggregate_stats_counts_le_total (t : Table) (s : Stats)
    (hs : get_aggregate_stats t = .ok s) :
    s.thumbs_up + s.thumbs_down ≤ s.total ∧ s.hallucinations ≤ s.total := by
  have hle := length_filter_beq_two_le (t.rows.map (fun row => row.user_feedback))
      (some "👍") (some "👎") (by simp)
  rw [List.length_map] at hle
  unfold get_aggregate_stats at hs
  repeat' first
    | split at hs
    | dsimp only at hs
  all_goals try exact Except.noConfusion hs
  all_goals rw [Except.ok.injEq] at hs
  all_goals subst hs
  all_goals refine ⟨by simpa using hle, ?_⟩
  all_goals first
    | exact List.length_filter_le ..
    | exact Nat.zero_le _

/-- Concrete instantiation of the C4 theorem on a one-row table with
positive feedback and a hallucination flag. -/
theorem get_aggregate_stats_counts_le_total_witness :
    (Stats.mk 1 1 0 1 2 100 100).thumbs_up + (Stats.mk 1 1 0 1 2 100 100).thumbs_down
      ≤ (Stats.mk 1 1 0 1 2 100 100).total
    ∧ (Stats.mk 1 1 0 1 2 100 100).hallucinations ≤ (Stats.mk 1 1 0 1 2 100 100).total :=
  get_aggregate_stats_counts_le_total
    { rows := [⟨2, "q", "b", 2, "m", "t", some "👍", true⟩] } _
    (by simp [get_aggregate_stats])

/-- C5 counterexample.  A read failure inside `manual_evaluate` is not
caught there: the exception propagates to the caller as-is, so it is false
that every failure during `update_by_match` is caught inside the store
operation. -/
theorem manual_evaluate_read_failure_propagates :
    manual_evaluate { contents := .error "read failed" } "p" "a" 1 "m" "t" (some "👍") false =
      .error "read failed" := by
  decide

/-- C5 amended.  Every failure during `log_prompt_response` (append) is
caught inside it and swallowed — the caller always receives a normal
return — whereas `manual_evaluate` (update_by_match) installs no handler:
a failing read propagates its exception unchanged to the caller, and a
failing write after a successful match does too. -/
theorem append_swallows_update_propagates :
    (∀ (fs : FileState) (now : ℚ) (prompt response : String) (latency : ℚ)
       (mv pt : String) (fb : Option String) (hal : Bool),
       ∃ fs2, log_prompt_response fs now prompt response latency mv pt fb hal = .ok fs2)
    ∧ (∀ (fs : FileState) (p r : String) (l : ℚ) (mv pt : String)
         (fb : Option String) (hal : Bool) (e : String),
       fs.contents = .error e →
       manual_evaluate fs p r l mv pt fb hal = .error e)
    ∧ (∀ (fs : FileState) (tbl : List Row) (p r : String) (l : ℚ) (mv pt : String)
         (fb : Option String) (hal : Bool),
       fs.contents = .ok tbl → fs.writeFails = true →
       (update_by_match tbl p r l mv pt fb hal).2 = true →
       manual_evaluate fs p r l mv pt fb hal = .error "write failed") := by
  refine ⟨?_, ?_, ?_⟩
  · intro fs now prompt response latency mv pt fb hal
    unfold log_prompt_response
    rcases h : append_attempt fs now prompt response latency mv pt fb hal with e | fs2
    · exact ⟨fs, rfl⟩
    · exact ⟨fs2, rfl⟩
  · intro fs p r l mv pt fb hal e he
    unfold manual_evaluate
    rw [he]
  · intro fs tbl p r l mv pt fb hal hc hw hwr
    unfold manual_evaluate
    rw [hc]
    simp [hwr, hw]

/-- Concrete instantiation of the C5 amended theorem: an unreadable file
state is swallowed by the logger but propagates out of
`manual_evaluate`. -/
theorem append_swallows_update_propagates_witness :
    (∃ fs2, log_prompt_response ⟨.error "disk", true⟩ 0 "p" "a" 1 "m" "t" none false = .ok fs2)
    ∧ manual_evaluate ⟨.error "disk", false⟩ "p" "a" 1 "m" "t" none false = .error "disk"
    ∧ manual_evaluate ⟨.ok [⟨0, "p", "a", 1, "m", "t", none, false⟩], true⟩
        "p" "a" 1 "m" "t" (some "👍") true = .error "write failed" :=
  ⟨append_swallows_update_propagates.1 ⟨.error "disk", true⟩ 0 "p" "a" 1 "m" "t" none false,
   append_swallows_update_propagates.2.1 ⟨.error "disk", false⟩ "p" "a" 1 "m" "t" none false "disk" rfl,
   append_swallows_update_propagates.2.2 ⟨.ok [⟨0, "p", "a", 1, "m", "t", none, false⟩], true⟩
     [⟨0, "p", "a", 1, "m", "t", none, false⟩] "p" "a" 1 "m" "t" (some "👍") true rfl rfl (by decide)⟩

/-- C6 counterexample.  A table missing the `user_feedback` column makes
`plot_metrics` raise (`df["user_feedback"].value_counts()` is unguarded),
so it is false that the renderer survives every malformed table with a
missing schema column. -/
theorem plot_metrics_missing_feedback_column_raises :
    plot_metrics { rows := [⟨0, "p", "a", 1, "m", "t", none, false⟩],
                   hasUserFeedback := false, hasLatency := true, hasHallucination := true } =
      .error "KeyError: user_feedback" := by
  decide

/-- C6 amended.  For every table containing a `user_feedback` column —
including the empty table, tables missing the `hallucination` or `latency`
columns, and tables whose feedback values are entirely absent —
`plot_metrics` raises no exception and returns a figure; when feedback is
entirely absent the first panel is the defined "no data" rendering.  Only
a missing `user_feedback` column escapes this guarantee. -/
theorem plot_metrics_total_when_feedback_column_present
    (t : Table) (hu : t.hasUserFeedback = true) :
    (∃ f, plot_metrics t = .ok f)
    ∧ ((∀ row ∈ t.rows, row.user_feedback = none) →
        ∃ f, plot_metrics t = .ok f ∧ f.panel1 = Panel1.noData) := by
  constructor
  · unfold plot_metrics
    rw [if_pos hu]
    exact ⟨_, rfl⟩
  · intro hnone
    have hvc : value_counts (t.rows.map (fun row => row.user_feedback)) = [] := by
      have hfm : (t.rows.map (fun row => row.user_feedback)).filterMap id = [] := by
        rw [List.filterMap_eq_nil_iff]
        intro a ha
        obtain ⟨row, hrow, rfl⟩ := List.mem_map.mp ha
        exact hnone row hrow
      simp only [value_counts, hfm]
      rfl
    unfold plot_metrics
    rw [if_pos hu]
    refine ⟨_, rfl, ?_⟩
    simp [hvc]

/-- Concrete instantiation of the C6 amended theorem: a one-row table with
no hallucination and no latency column and absent feedback renders the "no
data" first panel without raising. -/
theorem plot_metrics_total_when_feedback_column_present_witness :
    ∃ f, plot_metrics { rows := [⟨0, "p", "a", 1, "m", "t", none, false⟩],
                        hasUserFeedback := true, hasLatency := false,
                        hasHallucination := false } = .ok f
      ∧ f.panel1 = Panel1.noData :=
  (plot_metrics_total_when_feedback_column_present
    { rows := [⟨0, "p", "a", 1, "m", "t", none, false⟩],
      hasUserFeedback := true, hasLatency := false, hasHallucination := false } rfl).2
    (by decide)

/-- C7 counterexample.  When the inference collaborator yields an error
without raising — exactly what `generate_llm_response` does on an internal
exception — `handle_submit` treats it as a normal response: the measured
latency (here 1 second, not 0) is returned and logged, refuting the claim
that any collaborator failure is recorded and returned with latency 0. -/
theorem handle_submit_yielded_error_uses_measured_latency :
    (handle_submit (.ok (generate_llm_response (some "tok") (.error "boom") "gpt2")) 1 5
        { contents := .ok [] } "hello" "Default" "gpt2").1 =
      ("Error with model gpt2: boom", 1)
    ∧ (handle_submit (.ok (generate_llm_response (some "tok") (.error "boom") "gpt2")) 1 5
        { contents := .ok [] } "hello" "Default" "gpt2").2.contents =
      .ok [⟨5, "hello", "Error with model gpt2: boom", 1, "gpt2", "Default", none, false⟩]
    ∧ (1 : ℚ) ≠ 0 := by
  decide

/-- C7 amended.  With a working store and a non-blank prompt: when the
inference call raises `e`, `handle_submit` appends a record whose response
is the stringified error `"Error generating response: " ++ e` with latency
0 and returns that same pair; when the call returns text without raising —
including the error strings `generate_llm_response` yields on its own
caught failures — the text is appended and returned with the measured
latency instead. -/
theorem handle_submit_error_paths
    (fs : FileState) (tbl : List Row) (hc : fs.contents = .ok tbl)
    (hw : fs.writeFails = false) (measured now : ℚ) (p pt mv : String)
    (hp : prompt_is_blank p = false) :
    (∀ e, handle_submit (.error e) measured now fs p pt mv =
      (("Error generating response: " ++ e, 0),
       { fs with contents := Except.ok (tbl ++ [⟨now, p, "Error generating response: " ++ e, 0, mv, pt, none, false⟩]) }))
    ∧ (∀ resp, handle_submit (.ok resp) measured now fs p pt mv =
      ((resp, measured),
       { fs with contents := .ok (tbl ++ [⟨now, p, resp, measured, mv, pt, none, false⟩]) })) := by
  constructor
  · intro e
    simp [handle_submit, hp, log_prompt_response, append_attempt, hc, hw]
  · intro resp
    simp [handle_submit, hp, log_prompt_response, append_attempt, hc, hw]

/-- Concrete instantiation of the C7 amended theorem on an empty store. -/
theorem handle_submit_error_paths_witness :
    handle_submit (.error "boom") 3 9 { contents := .ok [] } "hi" "Default" "gpt2" =
      (("Error generating response: boom", 0),
       { contents := .ok [⟨9, "hi", "Error generating response: boom", 0, "gpt2", "Default", none, false⟩] })
    ∧ handle_submit (.ok "fine") 3 9 { contents := .ok [] } "hi" "Default" "gpt2" =
      (("fine", 3),
       { contents := .ok [⟨9, "hi", "fine", 3, "gpt2", "Default", none, false⟩] }) :=
  ⟨(handle_submit_error_paths { contents := .ok [] } [] rfl rfl 3 9 "hi" "Default" "gpt2"
      (by decide)).1 "boom",
   (handle_submit_error_paths { contents := .ok [] } [] rfl rfl 3 9 "hi" "Default" "gpt2"
      (by decide)).2 "fine"⟩

/-- C8.  A prompt that is empty or all whitespace is rejected up front:
`handle_submit` returns the fixed message with latency 0, the store is
left exactly as it was (no record appended), and the outcome is the same
for every possible collaborator result — the collaborator is never
consulted. -/
theorem handle_submit_blank_prompt
    (llm : Except String String) (measured now : ℚ) (fs : FileState)
    (p pt mv : String) (hp : prompt_is_blank p = true) :
    handle_submit llm measured now fs p pt mv = (("Please enter a prompt.", 0), fs) := by
  simp [handle_submit, hp]

/-- Concrete instantiation of the C8 theorem: a whitespace prompt with a
ready collaborator answer still returns the rejection pair and an
untouched store. -/
theorem handle_submit_blank_prompt_witness :
    handle_submit (.ok "would be the answer") 2 9 { contents := .ok [] } " \t " "Default" "gpt2" =
      (("Please enter a prompt.", 0), { contents := .ok [] }) :=
  handle_submit_blank_prompt (.ok "would be the answer") 2 9 { contents := .ok [] }
    " \t " "Default" "gpt2" (by decide)

/-- C9.  The outcome of `manual_evaluate` is independent of its
`model_version` and `prompt_template` arguments: two calls differing only
in those two arguments produce identical results on every file state, as
the body never reads them. -/
theorem manual_evaluate_ignores_model_and_template
    (fs : FileState) (p r : String) (l : ℚ)
    (mv1 pt1 mv2 pt2 : String) (fb : Option String) (hal : Bool) :
    manual_evaluate fs p r l mv1 pt1 fb hal = manual_evaluate fs p r l mv2 pt2 fb hal := rfl

/-- C10.  `get_aggregate_stats` needs only the `user_feedback` and
`latency` columns: any table containing both yields a well-formed `.ok`
stats record, with the hallucination count 0 when that column is absent;
and the two needed columns are genuine unguarded preconditions — a
non-empty table missing `user_feedback`, or missing `latency`, makes the
function raise a `KeyError`. -/
theorem get_aggregate_stats_column_preconditions :
    (∀ t : Table, t.hasUserFeedback = true → t.hasLatency = true →
      ∃ s, get_aggregate_stats t = .ok s
        ∧ (t.hasHallucination = false → s.hallucinations = 0))
    ∧ get_aggregate_stats { rows := [⟨0, "p", "a", 1, "m", "t", none, false⟩],
                            hasUserFeedback := false, hasLatency := true,
                            hasHallucination := true } =
        .error "KeyError: user_feedback"
    ∧ get_aggregate_stats { rows := [⟨0, "p", "a", 1, "m", "t", none, false⟩],
                            hasUserFeedback := true, hasLatency := false,
                            hasHallucination := true } =
        .error "KeyError: latency" := by
  refine ⟨?_, by decide, by decide⟩
  intro t hu hl
  unfold get_aggregate_stats
  rw [if_pos hu]
  dsimp only
  by_cases hpos : t.rows.length > 0
  · rw [if_pos hpos, if_pos hl]
    exact ⟨_, rfl, fun hh => by simp [hh]⟩
  · rw [if_neg hpos]
    exact ⟨_, rfl, fun hh => by simp [hh]⟩

/-- Concrete instantiation of the C10 theorem: a one-row table without a
hallucination column gets well-formed stats with hallucination count 0. -/
theorem get_aggregate_stats_column_preconditions_witness :
    ∃ s, get_aggregate_stats { rows := [⟨0, "p", "a", 1, "m", "t", none, false⟩],
                               hasUserFeedback := true, hasLatency := true,
                               hasHallucination := false } = .ok s
      ∧ s.hallucinations = 0 := by
  obtain ⟨s, hs, h0⟩ := get_aggregate_stats_column_preconditions.1
    { rows := [⟨0, "p", "a", 1, "m", "t", none, false⟩],
      hasUserFeedback := true, hasLatency := true, hasHallucination := false } rfl rfl
  exact ⟨s, hs, h0 rfl⟩

end Dashboard
